import Mathlib

/-!
Shallow embedding of the SensorPush daemon (`sensorpushd.py`) and proofs
about its specification claims.

Modelling conventions, used throughout:

* Python floats are modelled as exact rationals.  Since Mathlib's `ℚ`
  arithmetic is irreducible to the elaborator, we use an executable
  fraction type `PyQ` (numerator / positive denominator, normalised with a
  fuel-based Euclid gcd) so that every definition evaluates by `decide`.
  This is the standard exact-decimal idealisation of IEEE doubles: all
  concrete constants appearing in the claims are small decimals for which
  the idealisation and the float computation agree after the 2-decimal
  rounding the code applies.
* Python values that may be numbers, strings or `None` are `PyVal`;
  Python exceptions are the error side of `Except PyErr`.
* Instants are integers counting minutes (the granularity of every time
  computation in the claims); `strftime` formatting of instants is
  injective presentation and is not modelled — window lists carry the
  instants themselves.
* Transcendental formulas (the Carnot / Loxwiki absolute-humidity
  formulas, Magnus dewpoint, saturation-vapour VPD) use `exp`, `log` and
  real exponents, which have no exact executable model; they enter the
  embedding as a `DerivedFormulas` parameter.  Every claim about them
  concerns only *which* formula is selected and *which inputs it needs*,
  never its numeric value, and the theorems quantify over the parameter.
-/

/-- Fuel-driven Euclid gcd (structurally recursive so that it reduces). -/
def gcdF : ℕ → ℕ → ℕ → ℕ
  | 0, _, b => b
  | _ + 1, 0, b => b
  | f + 1, a + 1, b => gcdF f (b % (a + 1)) (a + 1)

/-- Gcd with enough fuel to run Euclid to completion. -/
def pygcd (a b : ℕ) : ℕ := gcdF (a + 1) a b

/-- Exact rational standing in for a Python float: numerator over a
positive denominator.  All constructors normalise, mirroring the fact
that a Python float is a canonical value. -/
structure PyQ where
  num : ℤ
  den : ℕ
deriving DecidableEq

/-- Normalise a fraction (divide out the gcd).  A zero denominator cannot
be produced by the embedded code; it is mapped to 0 for totality. -/
def PyQ.norm (q : PyQ) : PyQ :=
  if q.den = 0 then ⟨0, 1⟩
  else
    let g := pygcd q.num.natAbs q.den
    if g = 0 then ⟨0, 1⟩ else ⟨q.num / (g : ℤ), q.den / g⟩

/-- Build a normalised fraction. -/
def mkQ (n : ℤ) (d : ℕ) : PyQ := PyQ.norm ⟨n, d⟩

def PyQ.ofInt (n : ℤ) : PyQ := ⟨n, 1⟩

instance (n : ℕ) : OfNat PyQ n := ⟨⟨(n : ℤ), 1⟩⟩

def PyQ.add (a b : PyQ) : PyQ :=
  mkQ (a.num * (b.den : ℤ) + b.num * (a.den : ℤ)) (a.den * b.den)

def PyQ.sub (a b : PyQ) : PyQ :=
  mkQ (a.num * (b.den : ℤ) - b.num * (a.den : ℤ)) (a.den * b.den)

def PyQ.mul (a b : PyQ) : PyQ := mkQ (a.num * b.num) (a.den * b.den)

/-- Division.  Division by zero cannot be reached by the embedded code. -/
def PyQ.div (a b : PyQ) : PyQ :=
  if b.num < 0 then mkQ (-(a.num * (b.den : ℤ))) (a.den * b.num.natAbs)
  else mkQ (a.num * (b.den : ℤ)) (a.den * b.num.natAbs)

def PyQ.blt (a b : PyQ) : Bool := a.num * (b.den : ℤ) < b.num * (a.den : ℤ)

/-- Floor of the fraction (`Int.fdiv` rounds toward minus infinity). -/
def PyQ.floor (q : PyQ) : ℤ := q.num.fdiv (q.den : ℤ)

/-- Ceiling of the fraction. -/
def PyQ.ceil (q : PyQ) : ℤ := -((-q.num).fdiv (q.den : ℤ))

/-- Python `int()` applied to a float: truncation toward zero. -/
def pyTrunc (q : PyQ) : ℤ := if q.blt 0 then q.ceil else q.floor

/-- Round to the nearest integer, ties to even — the rounding mode of
Python's built-in `round`. -/
def roundHalfEven (q : PyQ) : ℤ :=
  let f := q.floor
  let r := q.sub (PyQ.ofInt f)
  if 2 * r.num < (r.den : ℤ) then f
  else if (r.den : ℤ) < 2 * r.num then f + 1
  else if f % 2 = 0 then f else f + 1

/-- Python `round(x, 2)` under the exact-decimal idealisation. -/
def round2 (q : PyQ) : PyQ := mkQ (roundHalfEven (q.mul 100)) 100

/-- A dynamic Python value as it appears in the vendor's JSON: a number,
a string, or `None`. -/
inductive PyVal where
  | num (q : PyQ)
  | str (s : String)
  | none
deriving DecidableEq

/-- The Python exceptions the embedded code can raise or catch. -/
inductive PyErr where
  | typeError
  | valueError
  | keyError
  | nameError
deriving DecidableEq

deriving instance DecidableEq for Except

/-- Numeric value of a run of decimal digits; `Option.none` when a
non-digit appears. -/
def digitsVal (l : List Char) : Option ℕ :=
  l.foldlM
    (fun acc c => if c.isDigit then some (10 * acc + (c.toNat - 48)) else Option.none)
    0

/-- Python `int(<string>)` on the plain decimal forms the code feeds it
(optional sign followed by digits). -/
def pyIntOfString (s : String) : Option ℤ :=
  match s.toList with
  | [] => Option.none
  | '-' :: rest => (digitsVal rest).bind fun n =>
      if rest = [] then Option.none else some (-(n : ℤ))
  | '+' :: rest => (digitsVal rest).bind fun n =>
      if rest = [] then Option.none else some (n : ℤ)
  | l => (digitsVal l).bind fun n => some (n : ℤ)

/-- Python `float(<string>)` on plain decimal literals (optional sign,
integer digits, optional point and fraction digits), under the
exact-decimal idealisation.  `Option.none` models `ValueError`. -/
def pyFloatOfString (s : String) : Option PyQ :=
  let signAndBody : Bool × List Char :=
    match s.toList with
    | '-' :: rest => (true, rest)
    | '+' :: rest => (false, rest)
    | l => (false, l)
  let neg := signAndBody.1
  let body := signAndBody.2
  let toVal : ℕ → ℕ → ℕ → PyQ := fun ip fp k =>
    let m : ℤ := (ip * 10 ^ k + fp : ℕ)
    mkQ (if neg then -m else m) (10 ^ k)
  match body.splitOn '.' with
  | [ip] =>
      if ip ≠ [] ∧ ip.all Char.isDigit then
        (digitsVal ip).map fun n => toVal n 0 0
      else Option.none
  | [ip, fp] =>
      if (ip ≠ [] ∨ fp ≠ []) ∧ ip.all Char.isDigit ∧ fp.all Char.isDigit then
        (digitsVal ip).bind fun n =>
          (digitsVal fp).map fun f => toVal n f fp.length
      else Option.none
  | _ => Option.none

/-- Multiplicity of a prime `p` in `n`, with fuel. -/
def countFactor : ℕ → ℕ → ℕ → ℕ
  | 0, _, _ => 0
  | f + 1, p, n =>
      if 2 ≤ p ∧ n ≠ 0 ∧ n % p = 0 then 1 + countFactor f p (n / p) else 0

/-- Left-pad a string with zeros to length `k`. -/
def padZeros (s : String) (k : ℕ) : String :=
  String.mk (List.replicate (k - s.length) '0') ++ s

/-- Python `str()` of a float: integral values render as `N.0`, other
values as their shortest exact decimal expansion.  (Under the
exact-decimal idealisation every value reaching this function has a
denominator of the form 2^a·5^b; the final branch is unreachable and
present only for totality.) -/
def pyFloatRepr (q : PyQ) : String :=
  let q := q.norm
  let sign := if q.num < 0 then "-" else ""
  if q.den = 1 then sign ++ toString q.num.natAbs ++ ".0"
  else
    let a := countFactor q.den 2 q.den
    let b := countFactor q.den 5 q.den
    let k := max a b
    let m := q.num.natAbs * 10 ^ k / q.den
    sign ++ toString (m / 10 ^ k) ++ "." ++ padZeros (toString (m % 10 ^ k)) k

/-- Python `float(x)` on a dynamic value: numbers pass through, strings
are parsed (`ValueError` on failure), `None` raises `TypeError`. -/
def pyFloatVal : PyVal → Except PyErr PyQ
  | PyVal.num q => Except.ok q
  | PyVal.str s =>
      match pyFloatOfString s with
      | some q => Except.ok q
      | Option.none => Except.error PyErr.valueError
  | PyVal.none => Except.error PyErr.typeError

/-- `F_to_C` from the source: Fahrenheit to Celsius rounded to two
decimals; with `noconvert` the value is only coerced to float.  The
`(F - 32) * 5.0 / 9.0` arithmetic raises `TypeError` on a non-numeric
argument, which the source catches and turns into `0.0`. -/
def F_to_C (F : PyVal) (noconvert : Bool) : Except PyErr PyQ :=
  if noconvert then pyFloatVal F
  else
    match F with
    | PyVal.num q => Except.ok (round2 (((q.sub 32).mul 5).div 9))
    | _ => Except.ok 0

/-- `ft_to_m` from the source: feet to metres rounded to two decimals.
Unlike `F_to_C` there is no exception handler: `ft * 0.3048` raises
`TypeError` on a non-numeric argument and the error propagates. -/
def ft_to_m (ft : PyVal) (noconvert : Bool) : Except PyErr PyQ :=
  if noconvert then pyFloatVal ft
  else
    match ft with
    | PyVal.num q => Except.ok (round2 (q.mul (mkQ 3048 10000)))
    | _ => Except.error PyErr.typeError

/-- `inHg_to_mBar` from the source: inches of mercury to millibar, no
exception handler. -/
def inHg_to_mBar (inHg : PyVal) (noconvert : Bool) : Except PyErr PyQ :=
  if noconvert then pyFloatVal inHg
  else
    match inHg with
    | PyVal.num q => Except.ok (round2 (q.mul (mkQ 338639 10000)))
    | _ => Except.error PyErr.typeError

/-- `kPa_to_mBar` from the source: kilopascal to millibar, no exception
handler. -/
def kPa_to_mBar (kPa : PyVal) (noconvert : Bool) : Except PyErr PyQ :=
  if noconvert then pyFloatVal kPa
  else
    match kPa with
    | PyVal.num q => Except.ok (round2 (q.mul 10))
    | _ => Except.error PyErr.typeError

/-- The `minutes_per_unit` table of `parse_backlog` (`M` is
`60 * 24 * 30.417`). -/
def minutes_per_unit (c : Char) : Option PyQ :=
  if c = 'm' then some 1
  else if c = 'h' then some 60
  else if c = 'd' then some (PyQ.ofInt (60 * 24))
  else if c = 'w' then some (PyQ.ofInt (60 * 24 * 7))
  else if c = 'M' then some ((PyQ.ofInt (60 * 24)).mul (mkQ 30417 1000))
  else if c = 'Y' then some (PyQ.ofInt (60 * 24 * 365))
  else Option.none

/-- `parse_backlog` from the source: convert a backlog string such as
`1d`, `10m`, `1M` to minutes, `int(int(s[:-1]) * minutes_per_unit[s[-1]])`.
Failures (`ValueError` of `int()`, `KeyError` of the unit table) are
modelled as `Option.none`. -/
def parse_backlog (s : String) : Option ℤ :=
  let cs := s.toList
  (pyIntOfString (String.mk cs.dropLast)).bind fun n =>
    cs.getLast?.bind fun u =>
      (minutes_per_unit u).map fun mu => pyTrunc ((PyQ.ofInt n).mul mu)

/-- The loop body of `build_timelist` after its first iteration.  The
source keeps two locals: `starttime` (the next window's start) and
`newstartt` (the previous window's end); from the second iteration on
they are linked by `starttime = newstartt - 30`, which this definition
exploits for its termination measure.  `timelist_loop` below is the
loop exactly as written, and the two are proved to agree. -/
def timelist_go (stoptime step : ℤ) (hstep : 0 < step) (newstartt : ℤ) :
    List (ℤ × ℤ) :=
  if newstartt - 30 ≤ stoptime then
    (newstartt - 30, newstartt + step) ::
      timelist_go stoptime step hstep (newstartt + step)
  else []
termination_by (stoptime + 31 - newstartt).toNat
decreasing_by
  simp_wf
  omega

/-- `build_timelist` from the source: slice `[starttime, stoptime]` into
windows; the first window is `[start, start + step]`, each later window
starts 30 minutes before its predecessor's end and ends `step` after it.
Positive `step` is required for termination (the source would loop
forever on `step ≤ 0`). -/
def build_timelist (starttime stoptime step : ℤ) (hstep : 0 < step) :
    List (ℤ × ℤ) :=
  if starttime ≤ stoptime then
    (starttime, starttime + step) ::
      timelist_go stoptime step hstep (starttime + step)
  else []

/-- The `while starttime <= stoptime` loop of `build_timelist` verbatim,
indexed by fuel: state is `(starttime, newstartt)` with `newstartt`
initially `None`, the next stop is `newstartt + step` when `newstartt`
is set and `starttime + step` otherwise, and the new `starttime` is
`nextstop - 30`.  `Option.none` as a result means the fuel ran out
before the loop exited. -/
def timelist_loop : ℕ → ℤ → ℤ → ℤ → Option ℤ → Option (List (ℤ × ℤ))
  | 0, starttime, stoptime, _, _ =>
      if starttime ≤ stoptime then Option.none else some []
  | fuel + 1, starttime, stoptime, step, newstartt =>
      if starttime ≤ stoptime then
        let nextstop := (match newstartt with
          | some n => n
          | Option.none => starttime) + step
        match timelist_loop fuel (nextstop - 30) stoptime step (some nextstop) with
        | some rest => some ((starttime, nextstop) :: rest)
        | Option.none => Option.none
      else some []

/-- A tag value as stored in a record's tag map: the code stores strings
for `sensor_name` and Python floats for `sensor_id`. -/
inductive TagValue where
  | str (s : String)
  | float (q : PyQ)
deriving DecidableEq

/-- Whether a tag value is a string. -/
def TagValue.isStr : TagValue → Bool
  | TagValue.str _ => true
  | TagValue.float _ => false

/-- A canonical measurement record as built by the code:
`{'measurement': ..., 'tags': {...}, 'fields': {...}, 'time': ...}`.
Tag and field maps are insertion-ordered association lists, like Python
dicts. -/
structure Record where
  measurement : String
  tags : List (String × TagValue)
  fields : List (String × PyQ)
  time : String
deriving DecidableEq

/-- Metadata of one sensor from the vendor's sensor listing (the values
`build_voltage_records` and `process_samples` read). -/
structure SensorMeta where
  id : String
  name : String
  battery_voltage : Option PyVal := Option.none
  rssi : Option PyVal := Option.none
deriving DecidableEq

/-- One raw vendor sample: an observation time plus optional readings.
`Option.none` for a reading models the key being absent from the JSON
object (`KeyError` on access). -/
structure Sample where
  observed : String
  humidity : Option PyVal := Option.none
  temperature : Option PyVal := Option.none
  barometric_pressure : Option PyVal := Option.none
  altitude : Option PyVal := Option.none
  distance : Option PyVal := Option.none
  dewpoint : Option PyVal := Option.none
  vpd : Option PyVal := Option.none
deriving DecidableEq

/-- The four transcendental derived-quantity formulas of the source
(Carnot absolute humidity, Loxwiki pressure-aware absolute humidity,
Magnus dewpoint, saturation-vapour-pressure VPD), abstracted as
parameters: they use `exp`/`log`/real powers, which have no exact
executable model, and no claim depends on their numeric value — only on
which one is invoked and on which inputs it reads. -/
structure DerivedFormulas where
  carnotAbs : PyQ → PyQ → PyQ
  loxAbs : PyQ → PyQ → PyQ → PyQ
  magnusDew : PyQ → PyQ → PyQ
  satVpd : PyQ → PyQ → PyQ

/-- A concrete instantiation of the formula parameter, used for closed
evaluations. -/
def zeroFormulas : DerivedFormulas :=
  ⟨fun _ _ => 0, fun _ _ _ => 0, fun _ _ => 0, fun _ _ => 0⟩

/-- Coerce a battery_voltage / rssi reading with
`try: float(...) except (KeyError, TypeError): 0.0` — a missing key or a
`None` yields `0.0`, but a non-numeric string raises `ValueError`, which
the handler does not catch. -/
def voltage_field : Option PyVal → Except PyErr PyQ
  | Option.none => Except.ok 0
  | some PyVal.none => Except.ok 0
  | some (PyVal.num q) => Except.ok q
  | some (PyVal.str s) =>
      match pyFloatOfString s with
      | some q => Except.ok q
      | Option.none => Except.error PyErr.valueError

/-- `build_voltage_records` from the source: one record per sensor under
the `<measurement>_V` name, with tags
`{'sensor_id': float(sensors[sid]['id']), 'sensor_name': str(...)}` and
fields `{voltage, rssi}`.  `querytime` is the pre-formatted
`strftime(querytime)` string. -/
def build_voltage_records :
    List (String × SensorMeta) → String → String → Except PyErr (List Record)
  | [], _, _ => Except.ok []
  | (_, meta) :: rest, measurement_name, querytime => do
      let bat_volt ← voltage_field meta.battery_voltage
      let rssi ← voltage_field meta.rssi
      let sidq ← match pyFloatOfString meta.id with
        | some q => Except.ok q
        | Option.none => Except.error PyErr.valueError
      let r : Record :=
        { measurement := measurement_name ++ "_V"
          tags := [("sensor_id", TagValue.float sidq),
                   ("sensor_name", TagValue.str meta.name)]
          fields := [("voltage", bat_volt), ("rssi", rssi)]
          time := querytime }
      let rs ← build_voltage_records rest measurement_name querytime
      Except.ok (r :: rs)

/-- The local variables of `process_samples` that later iterations can
observe: in Python, locals assigned in one pass of the `for item` loop
stay bound and are read by the derived-quantity expressions of a later
pass when that pass's sample lacks the reading.  Only `humidity` and
`temperature` are ever read across passes; `Option.none` means
never-yet-bound (reading it raises `NameError` / `UnboundLocalError`). -/
structure PyLocals where
  humidity : Option PyQ := Option.none
  temperature : Option PyQ := Option.none
deriving DecidableEq

/-- The field-assembly part of one pass of the `for item` loop of
`process_samples`: builds the insertion-ordered field map and the new
local-variable state.  Mirrors the source's `try/except/else/finally`
blocks in order: humidity, temperature, pressure + absolute humidity,
altitude, distance, dewpoint, vpd. -/
def process_fields (Φ : DerivedFormulas) (my_altitude : PyQ) (noconvert : Bool)
    (st : PyLocals) (item : Sample) :
    Except PyErr (List (String × PyQ) × PyLocals) := do
  -- humidity: float(item['humidity']); KeyError skips, other errors propagate
  let humRes : Option PyQ ← match item.humidity with
    | some v => (pyFloatVal v).map some
    | Option.none => Except.ok Option.none
  let hum : Option PyQ := match humRes with
    | some q => some q
    | Option.none => st.humidity
  let f1 : List (String × PyQ) := match humRes with
    | some q => [("humidity", q)]
    | Option.none => []
  -- temperature: F_to_C(item['temperature'], noconvert)
  let tempRes : Option PyQ ← match item.temperature with
    | some v => (F_to_C v noconvert).map some
    | Option.none => Except.ok Option.none
  let temp : Option PyQ := match tempRes with
    | some q => some q
    | Option.none => st.temperature
  let f2 : List (String × PyQ) := match tempRes with
    | some q => [("temperature", q)]
    | Option.none => []
  -- barometric pressure; on KeyError the Carnot absolute humidity, else
  -- the pressure field followed by the Loxwiki absolute humidity.  Both
  -- formulas read the locals `temperature` and `humidity`; if either is
  -- unbound the expression raises NameError, which nothing catches.
  let f3 : List (String × PyQ) ← match item.barometric_pressure with
    | some v => do
        let p ← inHg_to_mBar v noconvert
        match temp, hum with
        | some t, some h =>
            Except.ok [("pressure", p), ("abs_humidity", round2 (Φ.loxAbs t h p))]
        | _, _ => Except.error PyErr.nameError
    | Option.none =>
        match temp, hum with
        | some t, some h =>
            Except.ok [("abs_humidity", round2 (Φ.carnotAbs t h))]
        | _, _ => Except.error PyErr.nameError
  -- altitude: ft_to_m on KeyError falls back to my_altitude; a zero
  -- result is also replaced by my_altitude
  let altRaw : PyQ ← match item.altitude with
    | some v => ft_to_m v noconvert
    | Option.none => Except.ok my_altitude
  let altVal := if altRaw.num = 0 then my_altitude else altRaw
  let f4 : List (String × PyQ) := [("altitude", altVal)]
  -- distance: ft_to_m, skipped on KeyError
  let f5 : List (String × PyQ) ← match item.distance with
    | some v => (ft_to_m v noconvert).map fun d => [("distance", d)]
    | Option.none => Except.ok []
  -- dewpoint: F_to_C, derived via Magnus on KeyError (reads humidity
  -- and temperature)
  let dp : PyQ ← match item.dewpoint with
    | some v => F_to_C v noconvert
    | Option.none =>
        match hum, temp with
        | some h, some t => Except.ok (round2 (Φ.magnusDew h t))
        | _, _ => Except.error PyErr.nameError
  let f6 : List (String × PyQ) := [("dewpoint", dp)]
  -- vpd: kPa_to_mBar, derived from saturation vapour pressure on
  -- KeyError (reads temperature and humidity)
  let vp : PyQ ← match item.vpd with
    | some v => kPa_to_mBar v noconvert
    | Option.none =>
        match temp, hum with
        | some t, some h => kPa_to_mBar (PyVal.num (Φ.satVpd t h)) noconvert
        | _, _ => Except.error PyErr.nameError
  let f7 : List (String × PyQ) := [("vpd", vp)]
  Except.ok (f1 ++ f2 ++ f3 ++ f4 ++ f5 ++ f6 ++ f7,
    { humidity := hum, temperature := temp })

/-- One pass of the `for item` loop of `process_samples`: the record
skeleton is built first — `sensor_id` is `float(key)` (`ValueError` on a
non-numeric key propagates), `sensor_name` is `str(sensors[key]['name'])`,
`time` is `str(item['observed'])` — then the fields are assembled. -/
def process_one (Φ : DerivedFormulas) (meta : SensorMeta) (key : String)
    (measurement_name : String) (my_altitude : PyQ) (noconvert : Bool)
    (st : PyLocals) (item : Sample) : Except PyErr (Record × PyLocals) := do
  let sidq ← match pyFloatOfString key with
    | some q => Except.ok q
    | Option.none => Except.error PyErr.valueError
  let (fields, st') ← process_fields Φ my_altitude noconvert st item
  Except.ok
    ({ measurement := measurement_name
       tags := [("sensor_id", TagValue.float sidq),
                ("sensor_name", TagValue.str meta.name)]
       fields := fields
       time := item.observed }, st')

/-- The inner `for item in samples['sensors'][key]` loop: the sensor
metadata is looked up per item (`KeyError` when the key is missing from
the listing), and the Python locals thread from one pass to the next. -/
def process_items (Φ : DerivedFormulas) (sensors : List (String × SensorMeta))
    (key measurement_name : String) (my_altitude : PyQ) (noconvert : Bool) :
    PyLocals → List Sample → Except PyErr (List Record × PyLocals)
  | st, [] => Except.ok ([], st)
  | st, item :: rest => do
      let meta ← match sensors.lookup key with
        | some m => Except.ok m
        | Option.none => Except.error PyErr.keyError
      let (r, st') ←
        process_one Φ meta key measurement_name my_altitude noconvert st item
      let (rs, st'') ←
        process_items Φ sensors key measurement_name my_altitude noconvert st' rest
      Except.ok (r :: rs, st'')

/-- The outer `for key in samples['sensors'].keys()` loop. -/
def process_groups (Φ : DerivedFormulas) (sensors : List (String × SensorMeta))
    (measurement_name : String) (my_altitude : PyQ) (noconvert : Bool) :
    PyLocals → List (String × List Sample) → Except PyErr (List Record × PyLocals)
  | st, [] => Except.ok ([], st)
  | st, (key, items) :: rest => do
      let (rs, st') ←
        process_items Φ sensors key measurement_name my_altitude noconvert st items
      let (rs', st'') ←
        process_groups Φ sensors measurement_name my_altitude noconvert st' rest
      Except.ok (rs ++ rs', st'')

/-- `process_samples` from the source: turn the vendor's
`samples['sensors']` map (association list of sensor key to sample list)
into the list of measurement records. -/
def process_samples (Φ : DerivedFormulas) (samples : List (String × List Sample))
    (sensors : List (String × SensorMeta)) (measurement_name : String)
    (my_altitude : PyQ) (noconvert : Bool) : Except PyErr (List Record) :=
  (process_groups Φ sensors measurement_name my_altitude noconvert {} samples).map
    Prod.fst

/-- Python `str()` of a tag value, as applied by `VMWriter._to_json_lines`
when it serialises the tag map into metric labels. -/
def py_str_tag : TagValue → String
  | TagValue.str s => s
  | TagValue.float q => pyFloatRepr q

/-- One newline-delimited JSON object of the VictoriaMetrics native
JSON-import format: metric name `<measurement>_<field>`, the record's
tags as string labels, one value and one timestamp. -/
structure VMLine where
  metricName : String
  labels : List (String × String)
  value : PyQ
  timestampMs : ℤ
deriving DecidableEq

/-- `VMWriter._to_json_lines` from the source: one JSON line per field,
with every tag value stringified by `str()`.  The millisecond timestamp
(`parse_timestamp_to_ms` of the record's time string) is passed in, as
date-string parsing is presentation. -/
def vm_to_json_lines (r : Record) (timestampMs : ℤ) : List VMLine :=
  r.fields.map fun fv =>
    { metricName := r.measurement ++ "_" ++ fv.1
      labels := r.tags.map fun kv => (kv.1, py_str_tag kv.2)
      value := fv.2
      timestampMs := timestampMs }

/-- The per-sensor tag string the daemon's gap query uses:
`sid_tag = str(float(sid))` in `_compute_daemon_window`
(`Option.none` models the `ValueError` of `float()` on a key that is not
a float literal). -/
def sid_tag (sid : String) : Option String :=
  (pyFloatOfString sid).map pyFloatRepr

/-- A backend writer as `_compute_daemon_window` sees it: its connection
flag, its consecutive-failure counter, and its
`get_last_timestamp(measurement, sensor_id=tag)` behaviour as a function
from the tag string to an optional instant (exceptions inside
`get_last_timestamp` are caught by the daemon and logged, so they are
indistinguishable from `None`). -/
structure BaseWriter where
  connected : Bool
  consecutiveFailures : ℕ
  lastTs : String → Option ℤ

/-- One sensor of the `_compute_daemon_window` scan: compute the tag
`str(float(sid))` (the `ValueError` on an unparseable id propagates),
query the writer, and keep the oldest timestamp seen (`ts < oldest`
updates the running minimum). -/
def gap_check_step (w : BaseWriter) (acc : Option ℤ) (sid : String) :
    Except PyErr (Option ℤ) := do
  let tag ← match sid_tag sid with
    | some t => Except.ok t
    | Option.none => Except.error PyErr.valueError
  match w.lastTs tag with
  | some ts =>
      match acc with
      | Option.none => Except.ok (some ts)
      | some o => Except.ok (some (if ts < o then ts else o))
  | Option.none => Except.ok acc

/-- One writer of the `_compute_daemon_window` scan: skipped unless it is
connected with zero consecutive write failures, otherwise every sensor
id is checked. -/
def gap_check_writer (sensor_ids : List String) (acc : Option ℤ)
    (w : BaseWriter) : Except PyErr (Option ℤ) :=
  if w.connected && w.consecutiveFailures == 0 then
    sensor_ids.foldlM (gap_check_step w) acc
  else Except.ok acc

/-- The writers × sensors scan of `_compute_daemon_window`. -/
def gather_oldest (writers : List BaseWriter) (sensor_ids : List String) :
    Except PyErr (Option ℤ) :=
  writers.foldlM (gap_check_writer sensor_ids) Option.none

/-- `_compute_daemon_window` from the source: find the oldest last-known
timestamp over the writers × sensors scan; when the gap
`currenttime - oldest` exceeds `poll_backlog_min`, start one hour before
the oldest point, otherwise (and when nothing was found) start
`poll_backlog_min` before now; stop is always now. -/
def compute_daemon_window (writers : List BaseWriter) (sensor_ids : List String)
    (poll_backlog_min : ℤ) (currenttime : ℤ) : Except PyErr (ℤ × ℤ) := do
  let oldest ← gather_oldest writers sensor_ids
  match oldest with
  | some t =>
      if poll_backlog_min < currenttime - t then
        Except.ok (t - 60, currenttime)
      else
        Except.ok (currenttime - poll_backlog_min, currenttime)
  | Option.none => Except.ok (currenttime - poll_backlog_min, currenttime)

/-- The window computation as the claim states it, for comparison with
`compute_daemon_window`: identical except that it scans *every connected
writer*, with no exemption for writers that have consecutive write
failures. -/
def claim_daemon_window (writers : List BaseWriter) (sensor_ids : List String)
    (poll_backlog_min : ℤ) (currenttime : ℤ) : Except PyErr (ℤ × ℤ) := do
  let oldest ← writers.foldlM
    (fun acc w =>
      if w.connected then sensor_ids.foldlM (gap_check_step w) acc
      else Except.ok acc)
    (Option.none : Option ℤ)
  match oldest with
  | some t =>
      if poll_backlog_min < currenttime - t then
        Except.ok (t - 60, currenttime)
      else
        Except.ok (currenttime - poll_backlog_min, currenttime)
  | Option.none => Except.ok (currenttime - poll_backlog_min, currenttime)

/-- The timestamps one writer contributes to the scan: its answers at
tags `str(float(sid))` over the sensor list, when any. -/
def writer_ts (w : BaseWriter) (sensor_ids : List String) : List ℤ :=
  sensor_ids.filterMap fun sid => (sid_tag sid).bind w.lastTs

/-- The full writers × sensors product of timestamps the code's scan
draws from: for each eligible writer (connected, zero consecutive
failures) and each sensor id, the writer's answer at tag
`str(float(sid))`, when any. -/
def queried_ts (writers : List BaseWriter) (sensor_ids : List String) : List ℤ :=
  (writers.filter fun w => w.connected && w.consecutiveFailures == 0).foldr
    (fun w acc => writer_ts w sensor_ids ++ acc) []

/-- Running minimum of a timestamp list continued from `acc` — the shape
of the scan's accumulator. -/
def oldestFrom (acc : Option ℤ) (l : List ℤ) : Option ℤ :=
  l.foldl
    (fun a t => some (match a with
      | Option.none => t
      | some o => min o t))
    acc

/-- The oldest element of a list of timestamps, as the scan's running
minimum computes it. -/
def oldest_of (l : List ℤ) : Option ℤ := oldestFrom Option.none l

/-- State of one pool writer in `_safe_write`: connection flag and
consecutive-failure counter. -/
structure WState where
  connected : Bool
  consecutiveFailures : ℕ
deriving DecidableEq

/-- Environment behaviour of one pool writer during one `_safe_write`
batch: whether `reconnect()` would succeed, and whether each of the two
`write()` attempts would succeed. -/
structure WBehavior where
  reconnectOk : Bool
  attempt1Ok : Bool
  attempt2Ok : Bool
deriving DecidableEq

/-- What `_safe_write` did to one writer: its new state, whether the
batch was written to it, how many write attempts were made, and the
sleeps (in seconds) performed between attempts. -/
structure WriteOutcome where
  state : WState
  wrote : Bool
  attempts : ℕ
  sleeps : List ℕ
deriving DecidableEq

/-- The per-writer body of `_safe_write`: reconnect a disconnected writer
(skipping it for the cycle when that fails); then up to two write
attempts over the `[5, 10]` delay schedule, sleeping `delay` only when
another attempt follows (so only the 5 s entry is ever slept); success
resets `consecutiveFailures`, two failures increment it and mark the
writer disconnected once the counter is at least 3. -/
def safe_write_writer (st : WState) (b : WBehavior) : WriteOutcome :=
  if !st.connected && !b.reconnectOk then
    { state := st, wrote := false, attempts := 0, sleeps := [] }
  else if b.attempt1Ok then
    { state := { connected := true, consecutiveFailures := 0 },
      wrote := true, attempts := 1, sleeps := [] }
  else if b.attempt2Ok then
    { state := { connected := true, consecutiveFailures := 0 },
      wrote := true, attempts := 2, sleeps := [5] }
  else
    let f := st.consecutiveFailures + 1
    { state := { connected := decide (f < 3), consecutiveFailures := f },
      wrote := false, attempts := 2, sleeps := [5] }

/-- `_safe_write` from the source over the whole pool (with the daemon
running, i.e. no mid-batch shutdown): each writer is handled in turn;
afterwards a `ConnectionError` is raised exactly when no writer took the
batch and the program is not in daemon mode. -/
def safe_write (daemon : Bool) (ws : List (WState × WBehavior)) :
    List WriteOutcome × Bool :=
  let outs := ws.map fun p => safe_write_writer p.1 p.2
  (outs, outs.all (fun o => !o.wrote) && !daemon)

/-- Result of one HTTP POST in the OAuth flow: a 200 with a body, a
non-200 status, or a connection error. -/
inductive HttpResult where
  | ok (body : String)
  | httpError
  | connError
deriving DecidableEq

/-- How an `authenticate()` run can fail: the first step exhausted its
retries (the source's `ConnectionError('Failed to fetch API oauth
authorization ...')`), the second step got a non-200 (the source's
`ConnectionError('Access token request failed ...')`), or the second
step's POST itself raised a transport error that nothing catches. -/
inductive AuthErr where
  | authFailed
  | tokenRequestFailed
  | transportError
deriving DecidableEq

/-- Observable outcome of one `authenticate()` run: the result (the
access-token body on success), how many POSTs each step made, and the
sleeps performed. -/
structure AuthRun where
  result : Except AuthErr String
  step1Attempts : ℕ
  step2Attempts : ℕ
  sleeps : List ℕ
deriving DecidableEq

/-- MAXRETRY from the source. -/
def MAXRETRY : ℕ := 3

/-- The step-1 retry loop of `authenticate()` over the attempt numbers it
will run (`[1, 2, 3]`): a 200 breaks out with the body; otherwise, when
the attempt number has reached MAXRETRY the `ConnectionError` is raised
immediately (no sleep), else the loop sleeps 20 s and retries.  Returns
the result, the number of attempts made and the number of sleeps. -/
def auth_step1 (oracle : ℕ → HttpResult) :
    List ℕ → Except AuthErr String × ℕ × ℕ
  | [] => (Except.error AuthErr.authFailed, 0, 0)
  | a :: rest =>
      match oracle a with
      | HttpResult.ok body => (Except.ok body, 1, 0)
      | _ =>
          if MAXRETRY ≤ a then (Except.error AuthErr.authFailed, 1, 0)
          else
            let r := auth_step1 oracle rest
            (r.1, r.2.1 + 1, r.2.2 + 1)

/-- `authenticate()` from the source: step 1 (credentials to
authorization string) runs the retry loop; step 2 (authorization string
to access token) is a single POST — a non-200 or a transport error there
fails immediately, with no retry. -/
def authenticate (step1 step2 : ℕ → HttpResult) : AuthRun :=
  let r1 := auth_step1 step1 [1, 2, 3]
  let sleeps := List.replicate r1.2.2 20
  match r1.1 with
  | Except.error e => ⟨Except.error e, r1.2.1, 0, sleeps⟩
  | Except.ok _auth =>
      match step2 1 with
      | HttpResult.ok body => ⟨Except.ok body, r1.2.1, 1, sleeps⟩
      | HttpResult.httpError => ⟨Except.error AuthErr.tokenRequestFailed, r1.2.1, 1, sleeps⟩
      | HttpResult.connError => ⟨Except.error AuthErr.transportError, r1.2.1, 1, sleeps⟩

/-! ## Lemmas about the time windowing -/

lemma timelist_go_pos {stoptime step : ℤ} (hstep : 0 < step) {n : ℤ}
    (h : n - 30 ≤ stoptime) :
    timelist_go stoptime step hstep n =
      (n - 30, n + step) :: timelist_go stoptime step hstep (n + step) := by
  rw [timelist_go]
  simp [h]

lemma timelist_go_neg {stoptime step : ℤ} (hstep : 0 < step) {n : ℤ}
    (h : ¬ n - 30 ≤ stoptime) :
    timelist_go stoptime step hstep n = [] := by
  rw [timelist_go]
  simp [h]

lemma head_timelist_go {stoptime step : ℤ} (hstep : 0 < step) {n : ℤ}
    {w : ℤ × ℤ} (h : (timelist_go stoptime step hstep n).head? = some w) :
    w.1 = n - 30 := by
  by_cases hc : n - 30 ≤ stoptime
  · rw [timelist_go_pos hstep hc] at h
    simp at h
    rw [← h]
  · rw [timelist_go_neg hstep hc] at h
    simp at h

lemma chain_timelist_go (stoptime step : ℤ) (hstep : 0 < step) (n : ℤ) :
    List.Chain' (fun a b : ℤ × ℤ => b.1 = a.2 - 30)
      (timelist_go stoptime step hstep n) := by
  induction n using timelist_go.induct stoptime step hstep with
  | case1 n hc ih =>
    rw [timelist_go_pos hstep hc]
    refine List.chain'_cons'.mpr ⟨?_, ih⟩
    intro w hw
    have hh := head_timelist_go hstep hw
    simp only [hh]
  | case2 n hc =>
    rw [timelist_go_neg hstep hc]
    exact List.chain'_nil

lemma cover_timelist_go (stoptime step : ℤ) (hstep : 0 < step) (n : ℤ) :
    ∀ x : ℤ, n - 30 ≤ x → x ≤ stoptime →
      ∃ w ∈ timelist_go stoptime step hstep n, w.1 ≤ x ∧ x ≤ w.2 := by
  induction n using timelist_go.induct stoptime step hstep with
  | case1 n hc ih =>
    intro x hx1 hx2
    rw [timelist_go_pos hstep hc]
    by_cases hxw : x ≤ n + step
    · exact ⟨(n - 30, n + step), List.mem_cons_self _ _, hx1, hxw⟩
    · obtain ⟨w, hw, h1, h2⟩ := ih x (by omega) hx2
      exact ⟨w, List.mem_cons_of_mem _ hw, h1, h2⟩
  | case2 n hc =>
    intro x hx1 hx2
    omega

lemma timelist_loop_go (stoptime step : ℤ) (hstep : 0 < step) (n : ℤ) :
    timelist_loop (timelist_go stoptime step hstep n).length
        (n - 30) stoptime step (some n)
      = some (timelist_go stoptime step hstep n) := by
  induction n using timelist_go.induct stoptime step hstep with
  | case1 n hc ih =>
    rw [timelist_go_pos hstep hc]
    simp only [List.length_cons, timelist_loop, if_pos hc, ih]
  | case2 n hc =>
    rw [timelist_go_neg hstep hc]
    simp only [List.length_nil, timelist_loop, if_neg hc]

lemma timelist_loop_build (starttime stoptime step : ℤ) (hstep : 0 < step) :
    timelist_loop (build_timelist starttime stoptime step hstep).length
        starttime stoptime step Option.none
      = some (build_timelist starttime stoptime step hstep) := by
  by_cases hc : starttime ≤ stoptime
  · rw [build_timelist, if_pos hc]
    simp only [List.length_cons, timelist_loop, if_pos hc,
      timelist_loop_go stoptime step hstep (starttime + step)]
  · rw [build_timelist, if_neg hc]
    simp only [List.length_nil, timelist_loop, if_neg hc]

lemma build_timelist_example_eval :
    build_timelist 0 1440 720 (by decide) =
      [(0, 720), (690, 1440), (1410, 2160)] := by
  rw [build_timelist, if_pos (by decide)]
  rw [timelist_go_pos _ (by decide)]
  rw [timelist_go_pos _ (by decide)]
  rw [timelist_go_neg _ (by decide)]
  norm_num

/-- C3: for every `starttime ≤ stoptime` and positive step, consecutive
windows of `build_timelist` satisfy `next.start = previous.end - 30 min`
(30-minute overlap), and the windows jointly cover the whole interval
`[starttime, stoptime]`. -/
theorem build_timelist_overlap_cover (starttime stoptime step : ℤ)
    (hstep : 0 < step) (hle : starttime ≤ stoptime) :
    List.Chain' (fun a b : ℤ × ℤ => b.1 = a.2 - 30)
      (build_timelist starttime stoptime step hstep) ∧
    (∀ x : ℤ, starttime ≤ x → x ≤ stoptime →
      ∃ w ∈ build_timelist starttime stoptime step hstep, w.1 ≤ x ∧ x ≤ w.2) := by
  constructor
  · rw [build_timelist, if_pos hle]
    refine List.chain'_cons'.mpr ⟨?_, chain_timelist_go stoptime step hstep _⟩
    intro w hw
    have hh := head_timelist_go hstep hw
    simp only [hh]
  · intro x hx1 hx2
    rw [build_timelist, if_pos hle]
    by_cases hxw : x ≤ starttime + step
    · exact ⟨(starttime, starttime + step), List.mem_cons_self _ _, hx1, hxw⟩
    · obtain ⟨w, hw, h1, h2⟩ :=
        cover_timelist_go stoptime step hstep (starttime + step) x (by omega) hx2
      exact ⟨w, List.mem_cons_of_mem _ hw, h1, h2⟩

/-- Witness for C3 at `starttime = 0`, `stoptime = 1440`, `step = 720`. -/
theorem build_timelist_overlap_cover_witness :
    ((0:ℤ) < 720 ∧ (0:ℤ) ≤ 1440) ∧
    (List.Chain' (fun a b : ℤ × ℤ => b.1 = a.2 - 30)
        (build_timelist 0 1440 720 (by decide)) ∧
      (∀ x : ℤ, (0:ℤ) ≤ x → x ≤ 1440 →
        ∃ w ∈ build_timelist 0 1440 720 (by decide), w.1 ≤ x ∧ x ≤ w.2)) :=
  ⟨⟨by decide, by decide⟩,
   build_timelist_overlap_cover 0 1440 720 (by decide) (by decide)⟩

/-- C9: for every `starttime ≤ stoptime` and positive step the
`build_timelist` loop terminates — some finite fuel makes the verbatim
loop `timelist_loop` return a (finite) window list, namely
`build_timelist` itself. -/
theorem build_timelist_terminating (starttime stoptime step : ℤ)
    (hstep : 0 < step) (_hle : starttime ≤ stoptime) :
    ∃ fuel L, timelist_loop fuel starttime stoptime step Option.none = some L ∧
      L = build_timelist starttime stoptime step hstep :=
  ⟨_, _, timelist_loop_build starttime stoptime step hstep, rfl⟩

/-- Witness for C9 at `starttime = 0`, `stoptime = 1440`, `step = 720`. -/
theorem build_timelist_terminating_witness :
    ((0:ℤ) < 720 ∧ (0:ℤ) ≤ 1440) ∧
    (∃ fuel L, timelist_loop fuel 0 1440 720 Option.none = some L ∧
      L = build_timelist 0 1440 720 (by decide)) :=
  ⟨⟨by decide, by decide⟩,
   build_timelist_terminating 0 1440 720 (by decide) (by decide)⟩

/-- C4 (amended): `parse_backlog "1d" = 1440` and
`parse_backlog "1M" = 43800` hold as claimed, but windowing one day with
step 720 min yields `[00:00, 12:00]`, `[11:30, 24:00]`, `[23:30, 12:00
next day]` — after the first window, each window ends `step` after the
*previous window's end* (not 30 minutes earlier), because the loop
computes `nextstop = newstartt + step`. -/
theorem parse_and_window_examples :
    parse_backlog "1d" = some 1440 ∧ parse_backlog "1M" = some 43800 ∧
    build_timelist 0 1440 720 (by decide) =
      [(0, 720), (690, 1440), (1410, 2160)] :=
  ⟨by decide, by decide, build_timelist_example_eval⟩

/-- C4 counterexample: the claim's window list for
`[2024-01-01T00:00Z, 2024-01-02T00:00Z]` with step 720 min —
`[00:00, 12:00]`, `[11:30, 23:30]`, `[23:00, 11:00 next day]`, i.e.
`[(0, 720), (690, 1410), (1380, 2100)]` in minutes — is not what
`build_timelist` produces: the second window really ends at 24:00. -/
theorem window_example_claim_false :
    build_timelist 0 1440 720 (by decide) ≠
      [(0, 720), (690, 1410), (1380, 2100)] := by
  rw [build_timelist_example_eval]
  decide

/-! ## Lemmas about the daemon gap-fill window -/

lemma ok_bind {ε α β : Type} (a : α) (f : α → Except ε β) :
    (Except.ok a >>= f : Except ε β) = f a := rfl

lemma pure_eq_ok {ε α : Type} (a : α) : (pure a : Except ε α) = Except.ok a := rfl

lemma oldestFrom_append (acc : Option ℤ) (l1 l2 : List ℤ) :
    oldestFrom acc (l1 ++ l2) = oldestFrom (oldestFrom acc l1) l2 :=
  List.foldl_append _ _ _ _

lemma gap_check_step_eq (w : BaseWriter) (acc : Option ℤ) (sid : String)
    {t : String} (h : sid_tag sid = some t) :
    gap_check_step w acc sid =
      Except.ok (oldestFrom acc ((w.lastTs t).toList)) := by
  simp only [gap_check_step, h, ok_bind]
  cases hts : w.lastTs t with
  | none => simp [oldestFrom]
  | some ts =>
    cases acc with
    | none => simp [oldestFrom]
    | some o =>
      simp only [oldestFrom, Option.toList, List.foldl]
      have hmin : (if ts < o then ts else o) = min o ts := by omega
      rw [hmin]

lemma gather_inner (w : BaseWriter) (sids : List String)
    (hS : ∀ sid ∈ sids, (sid_tag sid).isSome) :
    ∀ acc : Option ℤ,
      sids.foldlM (gap_check_step w) acc =
        Except.ok (oldestFrom acc (writer_ts w sids)) := by
  induction sids with
  | nil =>
    intro acc
    simp [writer_ts, oldestFrom, List.foldlM, pure_eq_ok]
  | cons sid rest ih =>
    intro acc
    obtain ⟨t, ht⟩ := Option.isSome_iff_exists.mp (hS sid (List.mem_cons_self _ _))
    have hS' : ∀ s ∈ rest, (sid_tag s).isSome :=
      fun s hs => hS s (List.mem_cons_of_mem _ hs)
    rw [List.foldlM_cons, gap_check_step_eq w acc sid ht, ok_bind, ih hS']
    congr 1
    rw [writer_ts, writer_ts, List.filterMap_cons, ht]
    simp only [Option.some_bind]
    cases hts : w.lastTs t with
    | none => simp [oldestFrom]
    | some ts => simp [oldestFrom_append, oldestFrom]

lemma oldestFrom_nil (acc : Option ℤ) : oldestFrom acc [] = acc := rfl

lemma oldestFrom_cons (acc : Option ℤ) (x : ℤ) (l : List ℤ) :
    oldestFrom acc (x :: l) =
      oldestFrom (some (match acc with
        | Option.none => x
        | some o => min o x)) l := rfl

lemma queried_ts_nil (sids : List String) : queried_ts [] sids = [] := rfl

lemma queried_ts_cons (w : BaseWriter) (ws : List BaseWriter)
    (sids : List String) :
    queried_ts (w :: ws) sids =
      if w.connected && w.consecutiveFailures == 0 then
        writer_ts w sids ++ queried_ts ws sids
      else queried_ts ws sids := by
  rw [queried_ts, List.filter_cons]
  by_cases h : (w.connected && w.consecutiveFailures == 0) = true
  · simp only [h, if_true, List.foldr_cons]
    rfl
  · simp only [h]
    rfl

lemma gather_outer (sids : List String)
    (hS : ∀ sid ∈ sids, (sid_tag sid).isSome) :
    ∀ (writers : List BaseWriter) (acc : Option ℤ),
      writers.foldlM (gap_check_writer sids) acc =
        Except.ok (oldestFrom acc (queried_ts writers sids)) := by
  intro writers
  induction writers with
  | nil =>
    intro acc
    simp [queried_ts_nil, oldestFrom_nil, List.foldlM, pure_eq_ok]
  | cons w ws ih =>
    intro acc
    rw [List.foldlM_cons, queried_ts_cons]
    by_cases h : (w.connected && w.consecutiveFailures == 0) = true
    · rw [gap_check_writer, if_pos h, gather_inner w sids hS acc, ok_bind,
        ih, if_pos h, oldestFrom_append]
    · rw [gap_check_writer, if_neg h, ok_bind, ih, if_neg h]

lemma gather_oldest_eq (writers : List BaseWriter) (sids : List String)
    (hS : ∀ sid ∈ sids, (sid_tag sid).isSome) :
    gather_oldest writers sids =
      Except.ok (oldest_of (queried_ts writers sids)) := by
  rw [gather_oldest, gather_outer sids hS writers Option.none, oldest_of]

lemma oldestFrom_mem (l : List ℤ) :
    ∀ (acc : Option ℤ) (t : ℤ), oldestFrom acc l = some t →
      (acc = some t ∨ t ∈ l) ∧ (∀ u ∈ l, t ≤ u) ∧
      (∀ a, acc = some a → t ≤ a) := by
  induction l with
  | nil =>
    intro acc t h
    rw [oldestFrom_nil] at h
    refine ⟨Or.inl h, by simp, fun a ha => ?_⟩
    rw [h] at ha
    injection ha with ha
    omega
  | cons x l ih =>
    intro acc t h
    rw [oldestFrom_cons] at h
    obtain ⟨h1, h2, h3⟩ := ih _ t h
    cases acc with
    | none =>
      simp only at h1 h3
      have htx : t ≤ x := h3 x rfl
      constructor
      · rcases h1 with h1 | h1
        · injection h1 with h1
          exact Or.inr (h1 ▸ List.mem_cons_self x l)
        · exact Or.inr (List.mem_cons_of_mem _ h1)
      · exact ⟨fun u hu => by
          rcases List.mem_cons.mp hu with hu | hu
          · omega
          · exact h2 u hu,
          fun a ha => by cases ha⟩
    | some o =>
      simp only at h1 h3
      have htm : t ≤ min o x := h3 _ rfl
      constructor
      · rcases h1 with h1 | h1
        · injection h1 with h1
          rcases min_choice o x with hm | hm
          · exact Or.inl (by rw [hm] at h1; rw [h1])
          · exact Or.inr (by rw [hm] at h1; rw [← h1]; exact List.mem_cons_self x l)
        · exact Or.inr (List.mem_cons_of_mem _ h1)
      · refine ⟨fun u hu => ?_, fun a ha => ?_⟩
        · rcases List.mem_cons.mp hu with hu | hu
          · have : min o x ≤ x := min_le_right o x
            omega
          · exact h2 u hu
        · injection ha with ha
          have : min o x ≤ a := ha ▸ min_le_left o x
          omega

lemma oldestFrom_some_ne (l : List ℤ) :
    ∀ m : ℤ, ∃ t, oldestFrom (some m) l = some t := by
  induction l with
  | nil => intro m; exact ⟨m, rfl⟩
  | cons x l ih =>
    intro m
    rw [oldestFrom_cons]
    exact ih _

lemma oldest_of_none_iff (l : List ℤ) : oldest_of l = Option.none ↔ l = [] := by
  cases l with
  | nil => simp [oldest_of, oldestFrom_nil]
  | cons x l =>
    obtain ⟨t, ht⟩ := oldestFrom_some_ne l x
    have hx : oldest_of (x :: l) = some t := ht
    simp [hx]

/-- C1 (amended): in daemon mode the gap-fill window computation queries,
for every connected writer *with zero consecutive write failures* and
every sensor in the listing, that sensor's last temperature timestamp;
it takes the oldest timestamp over the whole writer-by-sensor product
(`oldest_of (queried_ts ...)` is a member of the product that bounds it
from below, and is `none` exactly when the product is empty), and
returns `start = oldest - 1 h` when `now - oldest` exceeds
`poll_backlog`, `start = now - poll_backlog` otherwise, and
`start = now - poll_backlog` when no writer returned any timestamp;
`stop` is always `now`. -/
theorem compute_daemon_window_spec (writers : List BaseWriter)
    (sensor_ids : List String) (poll_backlog_min currenttime : ℤ)
    (hS : ∀ sid ∈ sensor_ids, (sid_tag sid).isSome) :
    compute_daemon_window writers sensor_ids poll_backlog_min currenttime =
      Except.ok
        (match oldest_of (queried_ts writers sensor_ids) with
         | some t =>
             if poll_backlog_min < currenttime - t then t - 60
             else currenttime - poll_backlog_min
         | Option.none => currenttime - poll_backlog_min,
         currenttime) ∧
    (∀ t, oldest_of (queried_ts writers sensor_ids) = some t →
        t ∈ queried_ts writers sensor_ids ∧
        ∀ u ∈ queried_ts writers sensor_ids, t ≤ u) ∧
    (oldest_of (queried_ts writers sensor_ids) = Option.none ↔
        queried_ts writers sensor_ids = []) := by
  refine ⟨?_, ?_, oldest_of_none_iff _⟩
  · unfold compute_daemon_window
    rw [gather_oldest_eq writers sensor_ids hS, ok_bind]
    cases ho : oldest_of (queried_ts writers sensor_ids) with
    | none => simp
    | some t =>
      by_cases hgap : poll_backlog_min < currenttime - t <;> simp [hgap]
  · intro t ht
    obtain ⟨h1, h2, _⟩ := oldestFrom_mem _ _ _ ht
    refine ⟨?_, h2⟩
    rcases h1 with h1 | h1
    · cases h1
    · exact h1

/-- C1 counterexample: the claim's "every connected writer" is wrong —
a connected writer with one consecutive write failure is skipped by the
scan.  With writer 1 connected but one failure behind (last timestamp
t0-20min = 980) and writer 2 clean (last timestamp t0-5min = 995), at
now = 1000 with backlog 10 min the code starts at now - backlog = 990,
while the claim's computation (scanning every connected writer) would
detect the 20-minute gap and start at (t0-20min) - 1h = 920. -/
theorem daemon_window_skips_failing_writers :
    compute_daemon_window
        [⟨true, 1, fun _ => some 980⟩, ⟨true, 0, fun _ => some 995⟩]
        ["1"] 10 1000 = Except.ok (990, 1000) ∧
    claim_daemon_window
        [⟨true, 1, fun _ => some 980⟩, ⟨true, 0, fun _ => some 995⟩]
        ["1"] 10 1000 = Except.ok (920, 1000) ∧
    ((990 : ℤ), (1000 : ℤ)) ≠ ((920 : ℤ), (1000 : ℤ)) :=
  ⟨by decide, by decide, by decide⟩

/-- Witness for C1 on the claim's own scenario: three (clean, connected)
writers answering {t0-5min, t0-20min, none} for sensor A and
{t0-3min, t0-20min, none} for sensor B with backlog 10 min at t0 = 1000;
the chosen window is [(t0-20min) - 1h, t0] = (920, 1000). -/
theorem compute_daemon_window_spec_witness :
    (∀ sid ∈ ["1", "2"], (sid_tag sid).isSome) ∧
    compute_daemon_window
        [⟨true, 0, fun t => if t = "1.0" then some 995 else
            if t = "2.0" then some 997 else Option.none⟩,
         ⟨true, 0, fun _ => some 980⟩,
         ⟨true, 0, fun _ => Option.none⟩]
        ["1", "2"] 10 1000 = Except.ok (920, 1000) := by
  refine ⟨by decide, ?_⟩
  have h := (compute_daemon_window_spec
    [⟨true, 0, fun t => if t = "1.0" then some 995 else
        if t = "2.0" then some 997 else Option.none⟩,
     ⟨true, 0, fun _ => some 980⟩,
     ⟨true, 0, fun _ => Option.none⟩]
    ["1", "2"] 10 1000 (by decide)).1
  rw [h]
  decide

/-! ## Lemmas about record tags -/

lemma error_bind {ε α β : Type} (e : ε) (f : α → Except ε β) :
    (Except.error e >>= f : Except ε β) = Except.error e := rfl

lemma build_voltage_records_tags :
    ∀ (sensors : List (String × SensorMeta)) (mname qt : String)
      (out : List Record),
      build_voltage_records sensors mname qt = Except.ok out →
      ∀ r ∈ out, ∃ sid meta q, (sid, meta) ∈ sensors ∧
        pyFloatOfString meta.id = some q ∧
        r.tags = [("sensor_id", TagValue.float q),
                  ("sensor_name", TagValue.str meta.name)] := by
  intro sensors
  induction sensors with
  | nil =>
    intro mname qt out h r hr
    simp only [build_voltage_records] at h
    cases h
    cases hr
  | cons p rest ih =>
    obtain ⟨sid, meta⟩ := p
    intro mname qt out h r hr
    simp only [build_voltage_records] at h
    cases hb : voltage_field meta.battery_voltage with
    | error e => rw [hb, error_bind] at h; cases h
    | ok bv =>
      rw [hb, ok_bind] at h
      cases hrs : voltage_field meta.rssi with
      | error e => rw [hrs, error_bind] at h; cases h
      | ok rs =>
        rw [hrs, ok_bind] at h
        cases hq : pyFloatOfString meta.id with
        | none => simp only [hq, error_bind] at h; cases h
        | some q =>
          simp only [hq, ok_bind] at h
          cases hre : build_voltage_records rest mname qt with
          | error e => rw [hre, error_bind] at h; cases h
          | ok out' =>
            rw [hre, ok_bind] at h
            cases h
            rcases List.mem_cons.mp hr with hr | hr
            · exact ⟨sid, meta, q, List.mem_cons_self _ _, hq, by rw [hr]⟩
            · obtain ⟨sid', meta', q', hm, hq', ht'⟩ := ih mname qt out' hre r hr
              exact ⟨sid', meta', q', List.mem_cons_of_mem _ hm, hq', ht'⟩

lemma process_one_tags {Φ : DerivedFormulas} {meta : SensorMeta}
    {key mname : String} {alt : PyQ} {nc : Bool} {st : PyLocals}
    {item : Sample} {r : Record} {st' : PyLocals}
    (h : process_one Φ meta key mname alt nc st item = Except.ok (r, st')) :
    ∃ q, pyFloatOfString key = some q ∧
      r.tags = [("sensor_id", TagValue.float q),
                ("sensor_name", TagValue.str meta.name)] := by
  unfold process_one at h
  cases hq : pyFloatOfString key with
  | none => simp only [hq, error_bind] at h; cases h
  | some q =>
    simp only [hq, ok_bind] at h
    cases hf : process_fields Φ alt nc st item with
    | error e => rw [hf, error_bind] at h; cases h
    | ok p =>
      obtain ⟨fields, st2⟩ := p
      rw [hf] at h
      simp only [ok_bind] at h
      cases h
      exact ⟨q, rfl, rfl⟩

lemma process_items_tags {Φ : DerivedFormulas}
    {sensors : List (String × SensorMeta)} {key mname : String} {alt : PyQ}
    {nc : Bool} :
    ∀ (items : List Sample) (st : PyLocals) (out : List Record)
      (st' : PyLocals),
      process_items Φ sensors key mname alt nc st items = Except.ok (out, st') →
      ∀ r ∈ out, ∃ meta q, sensors.lookup key = some meta ∧
        pyFloatOfString key = some q ∧
        r.tags = [("sensor_id", TagValue.float q),
                  ("sensor_name", TagValue.str meta.name)] := by
  intro items
  induction items with
  | nil =>
    intro st out st' h r hr
    simp only [process_items] at h
    cases h
    cases hr
  | cons item rest ih =>
    intro st out st' h r hr
    simp only [process_items] at h
    cases hm : sensors.lookup key with
    | none => simp only [hm, error_bind] at h; cases h
    | some meta =>
      simp only [hm, ok_bind] at h
      cases h1 : process_one Φ meta key mname alt nc st item with
      | error e => rw [h1, error_bind] at h; cases h
      | ok p =>
        obtain ⟨r1, st1⟩ := p
        rw [h1] at h
        simp only [ok_bind] at h
        cases h2 : process_items Φ sensors key mname alt nc st1 rest with
        | error e => rw [h2, error_bind] at h; cases h
        | ok p2 =>
          obtain ⟨rs, st2⟩ := p2
          rw [h2] at h
          simp only [ok_bind] at h
          injection h with hpair
          injection hpair with hout hst
          subst hout
          rw [← hm]
          rcases List.mem_cons.mp hr with hr | hr
          · obtain ⟨q, hq, ht⟩ := process_one_tags h1
            exact ⟨meta, q, hm, hq, hr ▸ ht⟩
          · exact ih st1 rs st2 h2 r hr

lemma process_groups_tags {Φ : DerivedFormulas}
    {sensors : List (String × SensorMeta)} {mname : String} {alt : PyQ}
    {nc : Bool} :
    ∀ (samples : List (String × List Sample)) (st : PyLocals)
      (out : List Record) (st' : PyLocals),
      process_groups Φ sensors mname alt nc st samples = Except.ok (out, st') →
      ∀ r ∈ out, ∃ key meta q, sensors.lookup key = some meta ∧
        pyFloatOfString key = some q ∧
        r.tags = [("sensor_id", TagValue.float q),
                  ("sensor_name", TagValue.str meta.name)] := by
  intro samples
  induction samples with
  | nil =>
    intro st out st' h r hr
    simp only [process_groups] at h
    cases h
    cases hr
  | cons p rest ih =>
    obtain ⟨key, items⟩ := p
    intro st out st' h r hr
    simp only [process_groups] at h
    cases h1 : process_items Φ sensors key mname alt nc st items with
    | error e => rw [h1, error_bind] at h; cases h
    | ok p1 =>
      obtain ⟨rs1, st1⟩ := p1
      rw [h1] at h
      simp only [ok_bind] at h
      cases h2 : process_groups Φ sensors mname alt nc st1 rest with
      | error e => rw [h2, error_bind] at h; cases h
      | ok p2 =>
        obtain ⟨rs2, st2⟩ := p2
        rw [h2] at h
        simp only [ok_bind] at h
        injection h with hpair
        injection hpair with hout hst
        subst hout
        rcases List.mem_append.mp hr with hr | hr
        · obtain ⟨meta, q, hm, hq, ht⟩ := process_items_tags items st rs1 st1 h1 r hr
          exact ⟨key, meta, q, hm, hq, ht⟩
        · exact ih st1 rs2 st2 h2 r hr

lemma process_samples_tags {Φ : DerivedFormulas}
    {samples : List (String × List Sample)}
    {sensors : List (String × SensorMeta)} {mname : String} {alt : PyQ}
    {nc : Bool} {out : List Record}
    (h : process_samples Φ samples sensors mname alt nc = Except.ok out) :
    ∀ r ∈ out, ∃ key meta q, sensors.lookup key = some meta ∧
      pyFloatOfString key = some q ∧
      r.tags = [("sensor_id", TagValue.float q),
                ("sensor_name", TagValue.str meta.name)] := by
  unfold process_samples at h
  cases hg : process_groups Φ sensors mname alt nc {} samples with
  | error e => rw [hg] at h; cases h
  | ok p =>
    obtain ⟨rs, st⟩ := p
    rw [hg] at h
    simp only [Except.map] at h
    injection h with hout
    subst hout
    exact process_groups_tags samples {} rs st hg

/-- C2 (amended): every record produced by `build_voltage_records` and by
`process_samples` carries exactly two tags — `sensor_name`, a *string*,
and `sensor_id`, which is **not** the verbatim vendor identifier string
but the Python *float* `float(id)` / `float(key)` parsed from it (the
writers stringify it at serialisation time, and the daemon's gap query
compensates by filtering on `str(float(key))`). -/
theorem record_tags_shape :
    (∀ (sensors : List (String × SensorMeta)) (mname qt : String)
       (out : List Record),
      build_voltage_records sensors mname qt = Except.ok out →
      ∀ r ∈ out, ∃ sid meta q, (sid, meta) ∈ sensors ∧
        pyFloatOfString meta.id = some q ∧
        r.tags = [("sensor_id", TagValue.float q),
                  ("sensor_name", TagValue.str meta.name)]) ∧
    (∀ (Φ : DerivedFormulas) (samples : List (String × List Sample))
       (sensors : List (String × SensorMeta)) (mname : String) (alt : PyQ)
       (nc : Bool) (out : List Record),
      process_samples Φ samples sensors mname alt nc = Except.ok out →
      ∀ r ∈ out, ∃ key meta q, sensors.lookup key = some meta ∧
        pyFloatOfString key = some q ∧
        r.tags = [("sensor_id", TagValue.float q),
                  ("sensor_name", TagValue.str meta.name)]) :=
  ⟨build_voltage_records_tags,
   fun _ _ _ _ _ _ _ h => process_samples_tags h⟩

/-- C2 counterexample: for the vendor sensor `"123"` named `"Kitchen"`,
the produced record's `sensor_id` tag value is the float `123.0`, not a
string — so "only string tag values" and "the exact identifier string
supplied by the vendor, preserved verbatim" are both false. -/
theorem sensor_id_tag_not_string :
    build_voltage_records
        [("123", { id := "123", name := "Kitchen",
                   battery_voltage := some (PyVal.num 3),
                   rssi := some (PyVal.num ⟨-70, 1⟩) })]
        "SensorPush" "2024-01-01T00:00:00+0000"
      = Except.ok [{ measurement := "SensorPush_V",
                     tags := [("sensor_id", TagValue.float ⟨123, 1⟩),
                              ("sensor_name", TagValue.str "Kitchen")],
                     fields := [("voltage", ⟨3, 1⟩), ("rssi", ⟨-70, 1⟩)],
                     time := "2024-01-01T00:00:00+0000" }] ∧
    ([("sensor_id", TagValue.float ⟨123, 1⟩),
      ("sensor_name", TagValue.str "Kitchen")].all fun kv => kv.2.isStr)
        = false ∧
    TagValue.float ⟨123, 1⟩ ≠ TagValue.str "123" :=
  ⟨by decide, by decide, by decide⟩

/-- Witness for C2 (amended) on the `"123"` / `"Kitchen"` sensor. -/
theorem record_tags_shape_witness :
    (build_voltage_records
        [("123", { id := "123", name := "Kitchen",
                   battery_voltage := some (PyVal.num 3),
                   rssi := some (PyVal.num ⟨-70, 1⟩) })]
        "SensorPush" "T"
      = Except.ok [{ measurement := "SensorPush_V",
                     tags := [("sensor_id", TagValue.float ⟨123, 1⟩),
                              ("sensor_name", TagValue.str "Kitchen")],
                     fields := [("voltage", ⟨3, 1⟩), ("rssi", ⟨-70, 1⟩)],
                     time := "T" }]) ∧
    (∀ r ∈ [({ measurement := "SensorPush_V",
               tags := [("sensor_id", TagValue.float ⟨123, 1⟩),
                        ("sensor_name", TagValue.str "Kitchen")],
               fields := [("voltage", ⟨3, 1⟩), ("rssi", ⟨-70, 1⟩)],
               time := "T" } : Record)],
      ∃ sid meta q,
        (sid, meta) ∈ [("123", ({ id := "123", name := "Kitchen",
                                  battery_voltage := some (PyVal.num 3),
                                  rssi := some (PyVal.num ⟨-70, 1⟩)
                                  } : SensorMeta))] ∧
        pyFloatOfString meta.id = some q ∧
        r.tags = [("sensor_id", TagValue.float q),
                  ("sensor_name", TagValue.str meta.name)]) :=
  ⟨by decide,
   record_tags_shape.1
     [("123", { id := "123", name := "Kitchen",
                battery_voltage := some (PyVal.num 3),
                rssi := some (PyVal.num ⟨-70, 1⟩) })]
     "SensorPush" "T" _ (by decide)⟩

/-- C10: for every record `process_samples` produces for a sensor key
`k` (whose identifier parses as a float — otherwise no record exists),
the `sensor_id` filter string the daemon's gap query uses,
`sid_tag k = str(float(k))`, is exactly the string the VictoriaMetrics
writer's serialisation `str` attaches to that record's `sensor_id`
label: the last-timestamp query filters on precisely the tag value that
was written for `k`. -/
theorem sensor_id_roundtrip (Φ : DerivedFormulas)
    (samples : List (String × List Sample))
    (sensors : List (String × SensorMeta)) (mname : String) (alt : PyQ)
    (nc : Bool) (out : List Record)
    (h : process_samples Φ samples sensors mname alt nc = Except.ok out) :
    ∀ r ∈ out, ∃ key q, pyFloatOfString key = some q ∧
      r.tags.lookup "sensor_id" = some (TagValue.float q) ∧
      sid_tag key = some (py_str_tag (TagValue.float q)) ∧
      ∀ tsMs : ℤ, ∀ line ∈ vm_to_json_lines r tsMs,
        line.labels.lookup "sensor_id" = some (py_str_tag (TagValue.float q)) := by
  intro r hr
  obtain ⟨key, meta, q, hm, hq, ht⟩ := process_samples_tags h r hr
  refine ⟨key, q, hq, ?_, ?_, ?_⟩
  · rw [ht]
    simp [List.lookup]
  · rw [sid_tag, hq]
    rfl
  · intro tsMs line hl
    unfold vm_to_json_lines at hl
    obtain ⟨fv, hfv, hline⟩ := List.mem_map.mp hl
    rw [← hline]
    simp only [ht]
    simp [List.lookup, py_str_tag]

/-- Witness for C10 on a full concrete sample of sensor `"16064612"`. -/
theorem sensor_id_roundtrip_witness :
    (process_samples zeroFormulas
        [("16064612", [{ observed := "2024-01-01T00:00:00+0000",
                         humidity := some (PyVal.num 50),
                         temperature := some (PyVal.num 77),
                         barometric_pressure := some (PyVal.num ⟨748, 25⟩) }])]
        [("16064612", { id := "16064612", name := "Office" })]
        "SensorPush" 0 false
      = Except.ok [{ measurement := "SensorPush",
                     tags := [("sensor_id", TagValue.float ⟨16064612, 1⟩),
                              ("sensor_name", TagValue.str "Office")],
                     fields := [("humidity", ⟨50, 1⟩),
                                ("temperature", ⟨25, 1⟩),
                                ("pressure", ⟨101321, 100⟩),
                                ("abs_humidity", ⟨0, 1⟩),
                                ("altitude", ⟨0, 1⟩),
                                ("dewpoint", ⟨0, 1⟩),
                                ("vpd", ⟨0, 1⟩)],
                     time := "2024-01-01T00:00:00+0000" }]) ∧
    (∀ r ∈ [({ measurement := "SensorPush",
               tags := [("sensor_id", TagValue.float ⟨16064612, 1⟩),
                        ("sensor_name", TagValue.str "Office")],
               fields := [("humidity", ⟨50, 1⟩),
                          ("temperature", ⟨25, 1⟩),
                          ("pressure", ⟨101321, 100⟩),
                          ("abs_humidity", ⟨0, 1⟩),
                          ("altitude", ⟨0, 1⟩),
                          ("dewpoint", ⟨0, 1⟩),
                          ("vpd", ⟨0, 1⟩)],
               time := "2024-01-01T00:00:00+0000" } : Record)],
      ∃ key q, pyFloatOfString key = some q ∧
        r.tags.lookup "sensor_id" = some (TagValue.float q) ∧
        sid_tag key = some (py_str_tag (TagValue.float q)) ∧
        ∀ tsMs : ℤ, ∀ line ∈ vm_to_json_lines r tsMs,
          line.labels.lookup "sensor_id" = some (py_str_tag (TagValue.float q))) :=
  ⟨by decide,
   sensor_id_roundtrip zeroFormulas
     [("16064612", [{ observed := "2024-01-01T00:00:00+0000",
                      humidity := some (PyVal.num 50),
                      temperature := some (PyVal.num 77),
                      barometric_pressure := some (PyVal.num ⟨748, 25⟩) }])]
     [("16064612", { id := "16064612", name := "Office" })]
     "SensorPush" 0 false _ (by decide)⟩

/-! ## Writer pool, authentication, record-builder error handling -/

/-- C5 (amended): for every batch, `_safe_write` gives each writer that
is connected (or successfully reconnects) at most two write attempts,
with a single 5-second sleep between the two attempts (the 10-second
entry of the `[5, 10]` schedule is never slept, since no sleep follows
the second failure); a writer that succeeds has `consecutiveFailures`
reset to 0; a writer that fails both attempts has it incremented by
exactly 1 and is marked disconnected exactly when the counter reaches 3
(i.e. is ≥ 3); and an error is signalled to the caller iff every writer
failed and the program is in one-shot (non-daemon) mode. -/
theorem safe_write_spec (daemon : Bool) (ws : List (WState × WBehavior)) :
    (∀ p ∈ ws,
      (safe_write_writer p.1 p.2).attempts ≤ 2 ∧
      ((safe_write_writer p.1 p.2).wrote = true →
        (safe_write_writer p.1 p.2).state.consecutiveFailures = 0) ∧
      ((p.1.connected || p.2.reconnectOk) = true → p.2.attempt1Ok = false →
        p.2.attempt2Ok = false →
        (safe_write_writer p.1 p.2).state.consecutiveFailures
            = p.1.consecutiveFailures + 1 ∧
        ((safe_write_writer p.1 p.2).state.connected = false ↔
            3 ≤ p.1.consecutiveFailures + 1) ∧
        (safe_write_writer p.1 p.2).sleeps = [5])) ∧
    ((safe_write daemon ws).2 = true ↔
      ((safe_write daemon ws).1.all fun o => !o.wrote) = true ∧
        daemon = false) := by
  constructor
  · rintro ⟨st, b⟩ _hp
    obtain ⟨c, f⟩ := st
    obtain ⟨rc, a1, a2⟩ := b
    cases c <;> cases rc <;> cases a1 <;> cases a2 <;>
      simp [safe_write_writer]
  · simp [safe_write, Bool.and_eq_true, Bool.not_eq_true']

/-- C5 counterexample: a connected writer that fails both attempts
sleeps only once, for 5 s — not 5 s then 10 s as the claim describes:
the delay schedule's second entry is dead, because the loop only sleeps
when another attempt follows. -/
theorem safe_write_sleeps_claim_false :
    (safe_write_writer ⟨true, 0⟩ ⟨true, false, false⟩).sleeps = [5] ∧
    (safe_write_writer ⟨true, 0⟩ ⟨true, false, false⟩).sleeps ≠ [5, 10] :=
  ⟨by decide, by decide⟩

/-- Witness for C5 on the claim's scenario: writer 1 throws twice,
writer 2 succeeds; the cycle completes (no error even in one-shot mode),
writer 1 ends with `consecutiveFailures = 1`, and the batch is written
to writer 2. -/
theorem safe_write_spec_witness :
    ((∀ p ∈ [((⟨true, 0⟩ : WState), (⟨true, false, false⟩ : WBehavior)),
             (⟨true, 0⟩, ⟨true, true, true⟩)],
      (safe_write_writer p.1 p.2).attempts ≤ 2 ∧
      ((safe_write_writer p.1 p.2).wrote = true →
        (safe_write_writer p.1 p.2).state.consecutiveFailures = 0) ∧
      ((p.1.connected || p.2.reconnectOk) = true → p.2.attempt1Ok = false →
        p.2.attempt2Ok = false →
        (safe_write_writer p.1 p.2).state.consecutiveFailures
            = p.1.consecutiveFailures + 1 ∧
        ((safe_write_writer p.1 p.2).state.connected = false ↔
            3 ≤ p.1.consecutiveFailures + 1) ∧
        (safe_write_writer p.1 p.2).sleeps = [5])) ∧
    ((safe_write false [(⟨true, 0⟩, ⟨true, false, false⟩),
                        (⟨true, 0⟩, ⟨true, true, true⟩)]).2 = true ↔
      ((safe_write false [(⟨true, 0⟩, ⟨true, false, false⟩),
                          (⟨true, 0⟩, ⟨true, true, true⟩)]).1.all
          fun o => !o.wrote) = true ∧ (false : Bool) = false)) ∧
    safe_write false [(⟨true, 0⟩, ⟨true, false, false⟩),
                      (⟨true, 0⟩, ⟨true, true, true⟩)]
      = ([⟨⟨true, 1⟩, false, 2, [5]⟩, ⟨⟨true, 0⟩, true, 1, []⟩], false) :=
  ⟨safe_write_spec false
     [(⟨true, 0⟩, ⟨true, false, false⟩), (⟨true, 0⟩, ⟨true, true, true⟩)],
   by decide⟩

/-- Whether an HTTP result is a 200 with a body. -/
def httpOk : HttpResult → Bool
  | HttpResult.ok _ => true
  | _ => false

/-- C6 (amended): `authenticate()` performs two POST steps; the *first*
step retries up to MAXRETRY (3) attempts with a 20 s sleep after each
non-final failure, and signals AuthFailed when its retries are
exhausted; the *second* step is attempted exactly once — any non-200 or
transport error there fails the run immediately, with no retry. -/
theorem authenticate_spec (step1 step2 : ℕ → HttpResult) :
    (authenticate step1 step2).step1Attempts ≤ MAXRETRY ∧
    (authenticate step1 step2).step2Attempts ≤ 1 ∧
    (httpOk (step1 1) = false → httpOk (step1 2) = false →
      httpOk (step1 3) = false →
      authenticate step1 step2 =
        ⟨Except.error AuthErr.authFailed, 3, 0, [20, 20]⟩) ∧
    (∀ body, step1 1 = HttpResult.ok body →
      authenticate step1 step2 =
        ⟨(match step2 1 with
           | HttpResult.ok tok => Except.ok tok
           | HttpResult.httpError => Except.error AuthErr.tokenRequestFailed
           | HttpResult.connError => Except.error AuthErr.transportError),
         1, 1, []⟩) := by
  cases h1 : step1 1 <;> cases h2 : step1 2 <;> cases h3 : step1 3 <;>
    cases h4 : step2 1 <;>
      simp [authenticate, auth_step1, MAXRETRY, httpOk, h1, h2, h3, h4,
        List.replicate]

/-- C6 counterexample: with step 1 succeeding immediately and step 2's
first POST hitting a connection error, `authenticate` fails after a
single step-2 attempt even though a second attempt (well within the
claimed MAXRETRY = 3) would have succeeded — refuting "each of the two
steps retries up to MAXRETRY". -/
theorem authenticate_step2_no_retry :
    authenticate (fun _ => HttpResult.ok "auth")
        (fun n => if n = 1 then HttpResult.connError else HttpResult.ok "tok")
      = ⟨Except.error AuthErr.transportError, 1, 1, []⟩ ∧
    (fun n => if n = 1 then HttpResult.connError else HttpResult.ok "tok") 2
      = HttpResult.ok "tok" ∧
    (1 : ℕ) < MAXRETRY :=
  ⟨by decide, by decide, by decide⟩

/-- Witness for C6 with a permanently failing step-1 oracle: three
attempts, two 20 s sleeps, AuthFailed. -/
theorem authenticate_spec_witness :
    ((authenticate (fun _ => HttpResult.connError)
        (fun _ => HttpResult.ok "tok")).step1Attempts ≤ MAXRETRY ∧
    (authenticate (fun _ => HttpResult.connError)
        (fun _ => HttpResult.ok "tok")).step2Attempts ≤ 1 ∧
    (httpOk ((fun _ => HttpResult.connError) 1) = false →
      httpOk ((fun _ => HttpResult.connError) 2) = false →
      httpOk ((fun _ => HttpResult.connError) 3) = false →
      authenticate (fun _ => HttpResult.connError)
          (fun _ => HttpResult.ok "tok") =
        ⟨Except.error AuthErr.authFailed, 3, 0, [20, 20]⟩) ∧
    (∀ body, (fun _ => HttpResult.connError) 1 = HttpResult.ok body →
      authenticate (fun _ => HttpResult.connError)
          (fun _ => HttpResult.ok "tok") =
        ⟨(match (fun _ => HttpResult.ok "tok") 1 with
           | HttpResult.ok tok => Except.ok tok
           | HttpResult.httpError => Except.error AuthErr.tokenRequestFailed
           | HttpResult.connError => Except.error AuthErr.transportError),
         1, 1, []⟩)) ∧
    authenticate (fun _ => HttpResult.connError) (fun _ => HttpResult.ok "tok")
      = ⟨Except.error AuthErr.authFailed, 3, 0, [20, 20]⟩ :=
  ⟨authenticate_spec (fun _ => HttpResult.connError)
     (fun _ => HttpResult.ok "tok"),
   by decide⟩

/-- C7: the code contradicts the claim — for a sample carrying only
`humidity` (no temperature, no pressure), the Carnot absolute-humidity
expression reads the never-assigned local `temperature`, raising
`UnboundLocalError` (a `NameError`): `process_samples` fails instead of
emitting the record's other fields.  The spec's own design notes flag
this as a latent bug in the code, so the claim states the intent and the
code is wrong. -/
theorem process_samples_nameerror :
    process_samples zeroFormulas
        [("16064612", [{ observed := "2024-01-01T00:00:00+0000",
                         humidity := some (PyVal.num 50) }])]
        [("16064612", { id := "16064612", name := "Office" })]
        "SensorPush" 0 false = Except.error PyErr.nameError := by
  decide

/-- C8 (amended): only `F_to_C` has the TypeError guard — it returns
`0.0` when its input is `None` or a string (the subtraction raises
TypeError, which it catches); `ft_to_m`, `inHg_to_mBar` and
`kPa_to_mBar` have no handler and propagate the TypeError.  Moreover,
when `F_to_C` yields `0.0` the RecordBuilder does *not* decline the
field: the record is emitted with `temperature = 0.0`. -/
theorem conversion_guard_spec :
    F_to_C PyVal.none false = Except.ok 0 ∧
    F_to_C (PyVal.str "n/a") false = Except.ok 0 ∧
    ft_to_m PyVal.none false = Except.error PyErr.typeError ∧
    ft_to_m (PyVal.str "n/a") false = Except.error PyErr.typeError ∧
    inHg_to_mBar PyVal.none false = Except.error PyErr.typeError ∧
    inHg_to_mBar (PyVal.str "n/a") false = Except.error PyErr.typeError ∧
    kPa_to_mBar PyVal.none false = Except.error PyErr.typeError ∧
    kPa_to_mBar (PyVal.str "n/a") false = Except.error PyErr.typeError ∧
    process_samples zeroFormulas
        [("7", [{ observed := "T", humidity := some (PyVal.num 50),
                  temperature := some PyVal.none }])]
        [("7", { id := "7", name := "S" })] "SensorPush" 5 false
      = Except.ok [{ measurement := "SensorPush",
                     tags := [("sensor_id", TagValue.float ⟨7, 1⟩),
                              ("sensor_name", TagValue.str "S")],
                     fields := [("humidity", ⟨50, 1⟩),
                                ("temperature", ⟨0, 1⟩),
                                ("abs_humidity", ⟨0, 1⟩),
                                ("altitude", ⟨5, 1⟩),
                                ("dewpoint", ⟨0, 1⟩),
                                ("vpd", ⟨0, 1⟩)],
                     time := "T" }] := by
  decide

/-- C8 counterexample: `ft_to_m(None)` raises TypeError (modelled as the
error value) rather than returning `0.0` as the claim states for every
conversion function. -/
theorem conversion_guard_claim_false :
    ft_to_m PyVal.none false = Except.error PyErr.typeError ∧
    ft_to_m PyVal.none false ≠ Except.ok 0 :=
  ⟨by decide, by decide⟩
